import Mathlib

/-!
A shallow embedding of the `skbuild_conan` package
(`src/skbuild_conan/{conan_helper.py, setup_wrapper.py, exceptions.py}`).

Modelling conventions, used uniformly below:
* Python exceptions become the inductive type `Exc`; raising is the `Except.error`
  branch of `Except Exc α`.  `str(e)` is `excStr e` (the message passed to the
  exception constructor in `exceptions.py`).
* The filesystem is an oracle `fsExists : String → Bool` standing for
  `os.path.exists`; `os.path.join a b` on POSIX with a separator-free tail is
  `a ++ "/" ++ b`.
* The process environment `os.environ` is `Environ := String → Option String`
  (`none` = variable unset); `os.environ[k] = v` is `setVar E k (some v)` and
  `del os.environ[k]` is `setVar E k none` (the Python `del` raises `KeyError`
  when the key is absent; in `EnvContextManager.__exit__` the key was set by
  `__enter__`, and the model treats the delete as plain removal).
* Logging is effect-free and dropped, except where a claim is about a warning
  being emitted, in which case the warning becomes part of the return value.
* `time.sleep` is dropped (real time is not modelled).
-/

/-- The exception kinds of `exceptions.py` plus the builtin Python exceptions the
code interacts with.  `runtimeError` is the builtin `RuntimeError` raised by
`ConanHelper.cmake_args`; `otherException` stands for any other exception that
derives from Python's `Exception`; `keyboardInterrupt` is the builtin
`KeyboardInterrupt`, which derives from `BaseException` but not `Exception`. -/
inductive Exc where
  | conanVersion (currentVersion requiredVersion : String)
  | conanProfile (profileName details : String)
  | conanDependency (details : String)
  | conanNetwork (details : String)
  | conanRecipe (recipePath details : String)
  | conanOutput (details : String)
  | validationError (details : String)
  | versionCompatibility (details : String)
  | runtimeError (msg : String)
  | otherException (msg : String)
  | keyboardInterrupt
  deriving DecidableEq, Repr

/-- `isinstance(e, SkbuildConanError)`: the eight kinds declared in `exceptions.py`. -/
def Exc.isSkbuildConanError : Exc → Bool
  | .conanVersion _ _ => true
  | .conanProfile _ _ => true
  | .conanDependency _ => true
  | .conanNetwork _ => true
  | .conanRecipe _ _ => true
  | .conanOutput _ => true
  | .validationError _ => true
  | .versionCompatibility _ => true
  | .runtimeError _ => false
  | .otherException _ => false
  | .keyboardInterrupt => false

/-- `isinstance(e, Exception)`: everything except `KeyboardInterrupt` (which only
derives from `BaseException`). -/
def Exc.isException : Exc → Bool
  | .keyboardInterrupt => false
  | _ => true

/-- `isinstance(e, ConanNetworkError)`. -/
def Exc.isConanNetwork : Exc → Bool
  | .conanNetwork _ => true
  | _ => false

/-- `isinstance(e, ConanRecipeError)`. -/
def Exc.isConanRecipe : Exc → Bool
  | .conanRecipe _ _ => true
  | _ => false

/-- `isinstance(e, ConanOutputError)`. -/
def Exc.isConanOutput : Exc → Bool
  | .conanOutput _ => true
  | _ => false

/-- `isinstance(e, ConanDependencyError)`. -/
def Exc.isConanDependency : Exc → Bool
  | .conanDependency _ => true
  | _ => false

/-- `isinstance(e, ConanVersionError)`. -/
def Exc.isConanVersion : Exc → Bool
  | .conanVersion _ _ => true
  | _ => false

/-- `isinstance(e, ConanProfileError)`. -/
def Exc.isConanProfile : Exc → Bool
  | .conanProfile _ _ => true
  | _ => false

/-- `str(e)`: the message each constructor in `exceptions.py` passes to
`super().__init__`; for the builtin kinds, the message they were raised with
(`str(KeyboardInterrupt())` is the empty string). -/
def excStr : Exc → String
  | .conanVersion c r => "Conan " ++ c ++ " is not compatible. Required: " ++ r
  | .conanProfile n d => "Conan profile \x27" ++ n ++ "\x27 error: " ++ d
  | .conanDependency d => "Failed to resolve dependencies: " ++ d
  | .conanNetwork d => "Network error during conan operation: " ++ d
  | .conanRecipe p d => "Error with recipe at \x27" ++ p ++ "\x27: " ++ d
  | .conanOutput d => "Failed to parse conan output: " ++ d
  | .validationError d => "Invalid configuration: " ++ d
  | .versionCompatibility d => "Version compatibility issue: " ++ d
  | .runtimeError m => m
  | .otherException m => m
  | .keyboardInterrupt => ""

/-- `none` for a Python `None`, otherwise the list itself; Python truthiness of
an optional list (`if xs:`) is `optList xs ≠ []`. -/
def optList (o : Option (List α)) : List α := o.getD []

/-- Does `hay` start with `needle`?  (Char-list level; used to state
"this string appears in that message".) -/
def startsWithL : List Char → List Char → Bool
  | [], _ => true
  | _ :: _, [] => false
  | a :: as, b :: bs => if a = b then startsWithL as bs else false

/-- Does `needle` occur contiguously inside `hay`? -/
def occursIn : List Char → List Char → Bool
  | n, [] => startsWithL n []
  | n, b :: bs => startsWithL n (b :: bs) || occursIn n bs

/-- Python's `"str" in message`: `needle` occurs as a substring of `hay`. -/
def strOccurs (needle hay : String) : Bool := occursIn needle.data hay.data

/-- Python's `sep.join(parts)`. -/
def joinWithSep (sep : String) : List String → String
  | [] => ""
  | [x] => x
  | x :: y :: t => x ++ sep ++ joinWithSep sep (y :: t)

/-- Python's `s.split(sep)` for a one-character separator: keeps empty chunks,
`"".split(sep) = [""]`. -/
def pySplit (sep : Char) : List Char → List (List Char)
  | [] => [[]]
  | c :: rest =>
    match pySplit sep rest with
    | [] => if c = sep then [[], []] else [[c]]
    | h :: t => if c = sep then [] :: h :: t else (c :: h) :: t

/-- Value of a digit list, most significant first. -/
def digitsVal : List Char → Nat
  | [] => 0
  | c :: t => digitsVal t + c.toNat.sub 48 * 10 ^ t.length

/-- Python's `int(s)` on the strings this code feeds it: an optional sign
followed by at least one decimal digit parses, anything else raises
`ValueError` (`none`). -/
def pyInt (s : String) : Option Int :=
  match s.data with
  | [] => none
  | '-' :: rest =>
    if rest ≠ [] ∧ rest.all Char.isDigit then some (-(digitsVal rest : Int)) else none
  | '+' :: rest =>
    if rest ≠ [] ∧ rest.all Char.isDigit then some (digitsVal rest : Int) else none
  | l => if l.all Char.isDigit then some (digitsVal l : Int) else none

example : pyInt "25" = some 25 := by decide
example : pyInt "2x" = none := by decide
example : pySplit '.' "2.0.5".data = ["2".data, "0".data, "5".data] := by decide
example : strOccurs "abc" "xxabcy" = true := by decide
example : strOccurs "abd" "xxabcy" = false := by decide

/-!
### `retry_on_network_error` (conan_helper.py, lines 26-62)

The wrapped operation is modelled as `f : Nat → Except Exc α`, giving the result
of its `i`-th invocation (0-based).  The model returns the wrapper's result
together with the number of times `f` was invoked.  The `for attempt in
range(max_attempts)` loop is `retryLoop` with `remaining = max_attempts -
attempt` as the structural argument; only `ConanNetworkError` is caught by the
`except` clause, every other exception propagates out of the loop at once.
The backoff `time.sleep` is a no-op in the model.
-/

/-- One pass of the retry loop of `retry_on_network_error`: `attempt` is the
index of the next invocation, `remaining` how many loop iterations are left,
`last` the `last_exception` variable.  When the loop is exhausted the code
re-raises `last_exception` if set, and otherwise (only possible when
`max_attempts = 0`) calls the function once more outside the loop. -/
def retryLoop (f : Nat → Except Exc α) (attempt : Nat) :
    Nat → Option Exc → Except Exc α × Nat
  | 0, last =>
    match last with
    | some e => (.error e, attempt)
    | none => (f attempt, attempt + 1)
  | remaining + 1, _ =>
    match f attempt with
    | .ok v => (.ok v, attempt + 1)
    | .error e =>
      if e.isConanNetwork then retryLoop f (attempt + 1) remaining (some e)
      else (.error e, attempt + 1)

/-- `retry_on_network_error(max_attempts)` applied to `f`: the wrapper's result
and the number of invocations of `f`. -/
def retry_on_network_error (maxAttempts : Nat) (f : Nat → Except Exc α) :
    Except Exc α × Nat :=
  retryLoop f 0 maxAttempts none

/-!
### `EnvContextManager` (conan_helper.py, lines 65-88)
-/

/-- The process environment: `none` means the variable is unset. -/
def Environ : Type := String → Option String

/-- `os.environ[k] = v` (with `ov = some v`) or `del os.environ[k]`
(with `ov = none`). -/
def setVar (E : Environ) (k : String) (ov : Option String) : Environ :=
  fun x => if x = k then ov else E x

/-- The loop of `EnvContextManager.__enter__`: for each `(key, val)` of `env`
(a Python dict, so its keys are distinct and iteration is in insertion order),
record `old_env[key] = os.environ.get(key)` and set `os.environ[key] = val`.
Returns the updated environment and `old_env` as an insertion-ordered list. -/
def enterLoop : List (String × String) → Environ → Environ × List (String × Option String)
  | [], environ => (environ, [])
  | (k, v) :: rest, environ =>
    let environ1 := setVar environ k (some v)
    let r := enterLoop rest environ1
    (r.1, (k, environ k) :: r.2)

/-- The loop of `EnvContextManager.__exit__`: for each `(key, val)` of
`old_env` in insertion order, delete `key` if `val is None`, else restore it. -/
def exitLoop : List (String × Option String) → Environ → Environ
  | [], environ => environ
  | (k, ov) :: rest, environ => exitLoop rest (setVar environ k ov)

/-- Python truthiness of the `env` attribute (`if not self.env: return`):
falsy when `None` or the empty dict. -/
def envTruthy : Option (List (String × String)) → Bool
  | none => false
  | some [] => false
  | some (_ :: _) => true

/-- `with EnvContextManager(env): op` over environment `environ`.  The enclosed
operation `op` receives the environment and yields a result (`Except.error`
covering failure and cancellation alike) and the environment it leaves behind;
`__exit__` runs regardless of that outcome (the `with` statement semantics) and
does not inspect it. -/
def runWithEnv (env : Option (List (String × String))) (environ : Environ)
    (op : Environ → Except Exc α × Environ) : Except Exc α × Environ :=
  if envTruthy env then
    let r1 := enterLoop (optList env) environ
    let r2 := op r1.1
    (r2.1, exitLoop r1.2 r2.2)
  else
    -- __enter__ and __exit__ both return immediately without touching environ
    op environ

/-!
### `validate_setup_args` (setup_wrapper.py, lines 18-74)
-/

/-- The error entry appended for a requirement string `req` that is empty or
lacks a `/` (the four adjacent f-string fragments of the source, concatenated). -/
def invalidReqMsg (req : String) : String :=
  "Invalid requirement format: \x27" ++ req ++ "\x27. " ++
  "Expected format: \x27package/version\x27, \x27package/[>=version]\x27, " ++
  "or \x27package/version@user/channel\x27. " ++
  "See https://docs.conan.io/2/reference/conanfile/methods/requirements.html"

/-- The `errors` list accumulated by `validate_setup_args`, in source order:
requirement-format problems, then the conanfile-path check, then the per-recipe
checks, then the mutual-exclusion check. -/
def validationErrors (fsExists : String → Bool) (conanfile : String)
    (conan_recipes conan_requirements : Option (List String)) : List String :=
  let reqs := optList conan_requirements
  let recipes := optList conan_recipes
  -- `if conan_requirements:` then `for req in conan_requirements:`
  (if reqs ≠ [] then
    reqs.filterMap fun req =>
      if req = "" ∨ ¬req.data.contains '/' then some (invalidReqMsg req) else none
  else []) ++
  -- `if conanfile != '.' and not os.path.exists(conanfile):`
  (if conanfile ≠ "." ∧ ¬fsExists conanfile then
    ["Conanfile path does not exist: " ++ conanfile]
  else []) ++
  -- `if conan_recipes:` then `for recipe in conan_recipes:`
  (recipes.flatMap fun recipe =>
    if ¬fsExists recipe then ["Recipe path does not exist: " ++ recipe]
    else if ¬fsExists (recipe ++ "/conanfile.py") then
      ["Recipe path missing conanfile.py: " ++ recipe]
    else []) ++
  -- `if conan_requirements and conanfile != '.':`
  (if reqs ≠ [] ∧ conanfile ≠ "." then
    ["Cannot specify both conan_requirements and conanfile. " ++
     "Use conan_requirements for simple cases or conanfile for complex setups."]
  else [])

/-- `validate_setup_args`: raises `ValidationError` on the aggregated message
`"\n  - " + "\n  - ".join(errors)` exactly when `errors` is nonempty. -/
def validate_setup_args (fsExists : String → Bool) (conanfile : String)
    (conan_recipes conan_requirements : Option (List String)) : Except Exc Unit :=
  let errors := validationErrors fsExists conanfile conan_recipes conan_requirements
  if errors ≠ [] then
    .error (.validationError ("\n  - " ++ joinWithSep "\n  - " errors))
  else
    .ok ()

/-!
### `ConanHelper.install` command construction (conan_helper.py, lines 336-355)
-/

/-- The `cmd` list assembled in phase 3 of `ConanHelper.install`: discrete
`--requires` entries when the `requirements` argument is truthy, otherwise the
conanfile `path`, followed by settings, `--build=missing`, the output folder,
the generators, the profile and the build type. -/
def installCmd (path : String) (requirements : Option (List String))
    (settings : List (String × String)) (generatorFolder profile buildType : String) :
    List String :=
  let reqs := optList requirements
  (["install"] ++
    (if reqs ≠ [] then reqs.flatMap (fun req => ["--requires", req]) else [path])) ++
  settings.flatMap (fun kv => ["-s", kv.1 ++ "=" ++ kv.2]) ++
  ["--build=missing"] ++
  ["--output-folder=" ++ generatorFolder] ++
  ["-g", "CMakeDeps", "-g", "CMakeToolchain"] ++
  ["-pr", profile] ++
  ["-s", "build_type=" ++ buildType]

/-!
### `ConanHelper.install_from_paths` (conan_helper.py, lines 235-275) and the
dependency-resolution phase of `ConanHelper.install` (lines 328-363)

The per-path work inside the `try` block of `install_from_paths` (inspect the
recipe, query the cache, build if absent) is funnelled through the conan CLI;
it is abstracted as an oracle `body : String → Except Exc Unit` giving the
outcome of that block for each path (`.ok ()` covering both the
already-cached `continue` and a successful build).  Likewise the body of the
`try` block in phase 3 of `install` is abstracted as its outcome
`body : Except Exc Unit`.  The `except Exception as e` wrapping policies of
both functions are embedded verbatim.
-/

/-- `ConanHelper.install_from_paths`: for each path, check existence of the
path and its `conanfile.py` (raising `ConanRecipeError` outside the `try`
block), then run the per-path body; an exception `e` from the body is caught by
`except Exception as e` only if it derives from `Exception`, and is re-raised
as `ConanRecipeError(path, str(e))` unless it already is a `ConanRecipeError`,
`ConanNetworkError` or `ConanOutputError`. -/
def install_from_paths (fsExists : String → Bool)
    (body : String → Except Exc Unit) : List String → Except Exc Unit
  | [] => .ok ()
  | path :: rest =>
    if ¬fsExists path then .error (.conanRecipe path "Path does not exist")
    else if ¬fsExists (path ++ "/conanfile.py") then
      .error (.conanRecipe path "Missing conanfile.py")
    else
      match body path with
      | .ok () => install_from_paths fsExists body rest
      | .error e =>
        if e.isException ∧
            ¬(e.isConanRecipe ∨ e.isConanNetwork ∨ e.isConanOutput) then
          .error (.conanRecipe path (excStr e))
        else .error e

/-- Phase 3 of `ConanHelper.install` (dependency resolution): an exception `e`
from the body is caught by `except Exception as e` only if it derives from
`Exception`, and is re-raised as `ConanDependencyError(str(e))` unless it
already is a `ConanDependencyError`, `ConanNetworkError` or `ConanOutputError`. -/
def installDependencyPhase (body : Except Exc Unit) : Except Exc Unit :=
  match body with
  | .ok () => .ok ()
  | .error e =>
    if e.isException ∧
        ¬(e.isConanDependency ∨ e.isConanNetwork ∨ e.isConanOutput) then
      .error (.conanDependency (excStr e))
    else .error e

/-!
### `ConanHelper._check_conan_version` (conan_helper.py, lines 156-177)
-/

/-- The `try` block of `_check_conan_version`: parse `major.minor.patch` from
the dot-separated components (patch up to a `-` suffix, minor and patch
defaulting to 0 when absent) and decide whether the old-2.0.x warning is
logged; a `ValueError` from `int(...)` is caught and downgraded to a debug log
(no warning, `false`).  An `IndexError` cannot occur here: `split` never
returns an empty list and the other accesses are length-guarded. -/
def parseWarnFlag (parts : List String) : Bool :=
  match pyInt (parts.headD "") with
  | none => false
  | some major =>
    match if parts.length > 1 then pyInt (parts.getD 1 "") else some 0 with
    | none => false
    | some minor =>
      match
        if parts.length > 2 then
          pyInt (((pySplit '-' (parts.getD 2 "").data).map List.asString).headD "")
        else some 0
      with
      | none => false
      | some patch =>
        decide (major = 2 ∧ minor = 0 ∧ patch < 14)

/-- `_check_conan_version(version)`: raises `IndexError` on the empty string
(`version[0]`), raises `ConanVersionError(version, "2.x")` when the first
character is not `'2'`, and otherwise runs the `try` block (`parseWarnFlag`),
returning whether the old-2.0.x warning was logged. -/
def check_conan_version (version : String) : Except Exc Bool :=
  match version.data with
  | [] => .error (.otherException "IndexError: string index out of range")
  | c :: _ =>
    if c ≠ '2' then .error (.conanVersion version "2.x")
    else .ok (parseWarnFlag ((pySplit '.' version.data).map List.asString))

/-- Modelled from the spec: the claim about `_check_conan_version` speaks of
"the major version" of the reported version string, which the spec's data model
reads as the integer before the first `.` separator. -/
def specMajorVersion (version : String) : Option Int :=
  pyInt (((pySplit '.' version.data).map List.asString).headD "")

example : check_conan_version "1.59.0" = .error (.conanVersion "1.59.0" "2.x") := rfl
example : check_conan_version "2.0.5" = .ok true := rfl
example : check_conan_version "2.5.0" = .ok false := rfl
example : check_conan_version "25.0.0" = .ok false := rfl

/-!
### `ConanHelper.cmake_args` (conan_helper.py, lines 443-459)

`self.generator_folder` is `os.path.abspath(output_folder)` joined with the
lower-cased build type, so it is an absolute path and `os.path.abspath` of
`f"{self.generator_folder}/conan_toolchain.cmake"` is modelled as the string
itself.
-/

/-- `ConanHelper.cmake_args()`: raises `RuntimeError` when the toolchain file
is absent, and otherwise returns the two CMake flags. -/
def cmake_args (generator_folder : String) (fsExists : String → Bool) :
    Except Exc (List String) :=
  let toolchain_path := generator_folder ++ "/conan_toolchain.cmake"
  if ¬fsExists toolchain_path then
    .error (.runtimeError
      ("conan_toolchain.cmake not found. Make sure you" ++
       " specified \x27CMakeDeps\x27 and \x27CMakeToolchain\x27 as" ++
       " generators."))
  else
    .ok ["-DCMAKE_TOOLCHAIN_FILE=" ++ toolchain_path,
         "-DCMAKE_PREFIX_PATH=" ++ generator_folder]

/-!
### `ConanHelper.generate_dependency_report` (conan_helper.py, lines 365-441)

`datetime.now().strftime(...)` is the `timestamp` parameter.  Reading
`graph_info.json` (`open` + `json.load` + the `"graph" in graph_info` lookup)
is the oracle `readGraphInfo : Except Exc Bool` giving, on success, whether the
parsed JSON object has a `"graph"` key; it is only consulted when
`os.path.exists(graph_info_path)` holds.  Writing the report
(`os.makedirs` + `open` + `write`) is the oracle `writeReport : Except Exc Unit`.
Both surrounding `try` blocks catch `except Exception` only, so an exception
not deriving from `Exception` propagates.
-/

/-- The platform-independent line of 60 `=` characters used as a banner. -/
def eqBanner : String := List.asString (List.replicate 60 '=')

/-- The `lines` list of `generate_dependency_report` up to and including the
"Resolved Packages" section, given the already-determined lines of that
section, with the final `""` and closing banner appended. -/
def reportLines (profile buildType generatorFolder : String)
    (settings : List (String × String)) (localRecipes : List String)
    (requirements : Option (List String)) (timestamp : String)
    (graphSection : List String) : List String :=
  [eqBanner, "Dependency Resolution Report", eqBanner,
   "Generated: " ++ timestamp, "",
   "Build Configuration:",
   "  Profile: " ++ profile,
   "  Build Type: " ++ buildType,
   "  Output Folder: " ++ generatorFolder] ++
  (if settings ≠ [] then
    ["  Custom Settings:"] ++ settings.map (fun kv => "    " ++ kv.1 ++ "=" ++ kv.2)
  else []) ++
  [""] ++
  (if optList requirements ≠ [] then
    ["Requested Dependencies:"] ++ (optList requirements).map (fun req => "  - " ++ req)
  else ["Dependencies loaded from conanfile"]) ++
  [""] ++
  (if localRecipes ≠ [] then
    ["Local Recipes:"] ++ localRecipes.map (fun r => "  - " ++ r) ++ [""]
  else []) ++
  graphSection ++
  ["", eqBanner]

/-- The first `try` block of `generate_dependency_report`: determine the
"Resolved Packages" lines.  When `graph_info.json` exists, a successful read
yields the pointer line exactly when the parsed object has a `"graph"` key; a
read failure deriving from `Exception` is caught (debug log) and yields the
could-not-read placeholder; any other failure propagates. -/
def graphSectionAttempt (generatorFolder : String) (fsExists : String → Bool)
    (readGraphInfo : Except Exc Bool) : Except Exc (List String) :=
  if fsExists (generatorFolder ++ "/graph_info.json") then
    match readGraphInfo with
    | .ok hasGraphKey =>
      .ok (["Resolved Packages:"] ++
        (if hasGraphKey then
          ["  (See graph_info.json for detailed dependency graph)"]
        else []))
    | .error e =>
      if e.isException then
        -- `except Exception as e:` -> debug log plus placeholder lines
        .ok ["Resolved Packages:", "  (Could not read dependency graph)"]
      else .error e
  else
    .ok ["Resolved Packages:", "  (Detailed graph information not available)"]

/-- `ConanHelper.generate_dependency_report`: renders the report and returns it;
a read failure of the graph info or a write failure of the report file is
downgraded to a debug log (and, for the read, a placeholder line in the
report), provided the exception derives from `Exception`. -/
def generate_dependency_report (profile buildType generatorFolder : String)
    (settings : List (String × String)) (localRecipes : List String)
    (requirements : Option (List String)) (timestamp : String)
    (fsExists : String → Bool) (readGraphInfo : Except Exc Bool)
    (writeReport : Except Exc Unit) : Except Exc String :=
  match graphSectionAttempt generatorFolder fsExists readGraphInfo with
  | .error e => .error e
  | .ok graphSection =>
    let report := joinWithSep "\n"
      (reportLines profile buildType generatorFolder settings localRecipes
        requirements timestamp graphSection)
    match writeReport with
    | .ok () => .ok report
    | .error e =>
      if e.isException then .ok report  -- debug log, report still returned
      else .error e

/-!
### `setup` (setup_wrapper.py, lines 178-248)

The `try` body (constructing the `ConanHelper`, `install`, `cmake_args`, the
dependency report) is abstracted as its outcome `body : Except Exc α`; the
chain of `except` clauses that follows it is embedded verbatim.  `sys.exit(n)`
is the outcome `exitCode n`; the bare `raise` of the final
`except Exception` clause — and equally an exception deriving from neither
`Exception` nor `KeyboardInterrupt`, which no clause catches — is `reraised e`.
-/

/-- How a `setup` invocation terminates: normally, via `sys.exit`, or with an
exception propagating out. -/
inductive SetupResult (α : Type) where
  | finished (a : α)
  | exitCode (code : Nat)
  | reraised (e : Exc)
  deriving DecidableEq, Repr

/-- The `except` chain of `setup`, in source order: `ConanVersionError`,
`ConanProfileError`, `ConanDependencyError`, `ConanNetworkError`,
`SkbuildConanError`, each `sys.exit(1)`; `KeyboardInterrupt` exits 130; a
remaining `Exception` is logged and re-raised; anything else is caught by no
clause and propagates. -/
def setupHandle (body : Except Exc α) : SetupResult α :=
  match body with
  | .ok a => .finished a
  | .error e =>
    if e.isConanVersion then .exitCode 1
    else if e.isConanProfile then .exitCode 1
    else if e.isConanDependency then .exitCode 1
    else if e.isConanNetwork then .exitCode 1
    else if e.isSkbuildConanError then .exitCode 1
    else if e = .keyboardInterrupt then .exitCode 130
    else .reraised e

/-- `setup`: `validate_setup_args` runs first in its own `try`, whose
`except ValidationError` clause exits with code 1; only then does the main
`try` body run. -/
def setupModel (fsExists : String → Bool) (conanfile : String)
    (conan_recipes conan_requirements : Option (List String))
    (body : Except Exc α) : SetupResult α :=
  match validate_setup_args fsExists conanfile conan_recipes conan_requirements with
  | .error _ => .exitCode 1
  | .ok () => setupHandle body

/-! ### Helper lemmas -/

theorem startsWithL_iff {n h : List Char} :
    startsWithL n h = true ↔ ∃ t, h = n ++ t := by
  induction n generalizing h with
  | nil => simp [startsWithL]
  | cons a as ih =>
    cases h with
    | nil => simp [startsWithL]
    | cons b bs =>
      by_cases hab : a = b
      · subst hab
        simp [startsWithL, ih]
      · simp only [startsWithL, if_neg hab, Bool.false_eq_true, false_iff]
        rintro ⟨t, ht⟩
        simp only [List.cons_append, List.cons.injEq] at ht
        exact absurd ht.1.symm hab

theorem occursIn_iff {n h : List Char} :
    occursIn n h = true ↔ ∃ p q, h = p ++ n ++ q := by
  induction h with
  | nil =>
    simp only [occursIn, startsWithL_iff]
    constructor
    · rintro ⟨t, ht⟩
      exact ⟨[], t, by simpa using ht⟩
    · rintro ⟨p, q, hpq⟩
      rcases List.append_eq_nil.mp hpq.symm with ⟨h1, h2⟩
      rcases List.append_eq_nil.mp h1 with ⟨h3, h4⟩
      exact ⟨[], by simp [h4]⟩
  | cons b bs ih =>
    simp only [occursIn, Bool.or_eq_true, startsWithL_iff, ih]
    constructor
    · rintro (⟨t, ht⟩ | ⟨p, q, hpq⟩)
      · exact ⟨[], t, by simp [ht]⟩
      · exact ⟨b :: p, q, by simp [hpq]⟩
    · rintro ⟨p, q, hpq⟩
      cases p with
      | nil => exact Or.inl ⟨q, by simpa using hpq⟩
      | cons a p' =>
        simp only [List.cons_append, List.cons.injEq] at hpq
        exact Or.inr ⟨p', q, hpq.2⟩

theorem occursIn_trans {a b c : List Char} (h1 : occursIn a b = true)
    (h2 : occursIn b c = true) : occursIn a c = true := by
  rcases occursIn_iff.mp h1 with ⟨p, q, hb⟩
  rcases occursIn_iff.mp h2 with ⟨p', q', hc⟩
  exact occursIn_iff.mpr ⟨p' ++ p, q ++ q', by simp [hc, hb]⟩

theorem occursIn_join {sep e : String} :
    ∀ {l : List String}, e ∈ l → occursIn e.data (joinWithSep sep l).data = true
  | [], h => absurd h (List.not_mem_nil e)
  | [x], h => by
    rcases List.mem_singleton.mp h with rfl
    exact occursIn_iff.mpr ⟨[], [], by simp [joinWithSep]⟩
  | x :: y :: t, h => by
    rcases List.mem_cons.mp h with rfl | h'
    · exact occursIn_iff.mpr ⟨[], (sep ++ joinWithSep sep (y :: t)).data, by
        simp [joinWithSep, String.data_append]⟩
    · have ih := @occursIn_join sep e (y :: t) h'
      rcases occursIn_iff.mp ih with ⟨p, q, hj⟩
      exact occursIn_iff.mpr ⟨(x ++ sep).data ++ p, q, by
        simp [joinWithSep, String.data_append, hj]⟩

theorem occursIn_invalidReqMsg (req : String) :
    occursIn req.data (invalidReqMsg req).data = true := by
  refine occursIn_iff.mpr ⟨"Invalid requirement format: \x27".data, ?_, ?_⟩
  · exact ("\x27. " ++
      "Expected format: \x27package/version\x27, \x27package/[>=version]\x27, " ++
      "or \x27package/version@user/channel\x27. " ++
      "See https://docs.conan.io/2/reference/conanfile/methods/requirements.html").data
  · simp [invalidReqMsg, String.data_append]

theorem enterLoop_keys (env : List (String × String)) (E : Environ) :
    ((enterLoop env E).2).map Prod.fst = env.map Prod.fst := by
  induction env generalizing E with
  | nil => rfl
  | cons kv rest ih => simp [enterLoop, ih]

theorem setVar_comm {E : Environ} {k k' : String} (h : k ≠ k') (ov ov' : Option String) :
    setVar (setVar E k ov) k' ov' = setVar (setVar E k' ov') k ov := by
  funext x
  simp only [setVar]
  by_cases h1 : x = k' <;> by_cases h2 : x = k <;> simp_all

theorem exitLoop_setVar_comm {old : List (String × Option String)} {k : String}
    (h : k ∉ old.map Prod.fst) (E : Environ) (ov : Option String) :
    exitLoop old (setVar E k ov) = setVar (exitLoop old E) k ov := by
  induction old generalizing E with
  | nil => rfl
  | cons kv rest ih =>
    simp only [List.map_cons, List.mem_cons] at h
    push_neg at h
    simp only [exitLoop]
    rw [setVar_comm h.1 ov kv.2, ih h.2]

theorem env_roundtrip {env : List (String × String)} (E : Environ)
    (hnd : (env.map Prod.fst).Nodup) :
    exitLoop (enterLoop env E).2 (enterLoop env E).1 = E := by
  induction env generalizing E with
  | nil => rfl
  | cons kv rest ih =>
    simp only [List.map_cons, List.nodup_cons] at hnd
    simp only [enterLoop, exitLoop]
    have hkeys : kv.1 ∉ ((enterLoop rest (setVar E kv.1 (some kv.2))).2).map Prod.fst := by
      rw [enterLoop_keys]; exact hnd.1
    rw [exitLoop_setVar_comm hkeys, ih _ hnd.2]
    funext x
    simp only [setVar]
    by_cases hx : x = kv.1 <;> simp [hx]

theorem retryLoop_step_ok {f : Nat → Except Exc α} {attempt : Nat} {v : α}
    (h : f attempt = .ok v) (remaining : Nat) (last : Option Exc) :
    retryLoop f attempt (remaining + 1) last = (.ok v, attempt + 1) := by
  simp [retryLoop, h]

theorem retryLoop_step_net {f : Nat → Except Exc α} {attempt : Nat} {e : Exc}
    (h : f attempt = .error e) (hn : e.isConanNetwork = true)
    (remaining : Nat) (last : Option Exc) :
    retryLoop f attempt (remaining + 1) last =
      retryLoop f (attempt + 1) remaining (some e) := by
  simp [retryLoop, h, hn]

theorem retryLoop_step_other {f : Nat → Except Exc α} {attempt : Nat} {e : Exc}
    (h : f attempt = .error e) (hn : e.isConanNetwork = false)
    (remaining : Nat) (last : Option Exc) :
    retryLoop f attempt (remaining + 1) last = (.error e, attempt + 1) := by
  simp [retryLoop, h, hn]

theorem retryLoop_exhausted {f : Nat → Except Exc α} {attempt : Nat} {e : Exc} :
    retryLoop f attempt 0 (some e) = (.error e, attempt) := by
  simp [retryLoop]

/-- C1: the retry wrapper retries only network-kind failures.  With
`max_attempts = 3`: (i) network failures on attempts 1 and 2 followed by a
success on attempt 3 yield the success value after exactly 3 invocations;
(ii) a non-network failure on the first attempt propagates unchanged after
exactly 1 invocation; (iii) network failures on all 3 attempts re-raise the
last observed network failure after exactly 3 invocations. -/
theorem C1_retry_only_network_failures :
    (∀ (α : Type) (f : Nat → Except Exc α) (e0 e1 : Exc) (v : α),
      f 0 = .error e0 → e0.isConanNetwork = true →
      f 1 = .error e1 → e1.isConanNetwork = true →
      f 2 = .ok v →
      retry_on_network_error 3 f = (.ok v, 3)) ∧
    (∀ (α : Type) (f : Nat → Except Exc α) (e : Exc),
      f 0 = .error e → e.isConanNetwork = false →
      retry_on_network_error 3 f = (.error e, 1)) ∧
    (∀ (α : Type) (f : Nat → Except Exc α) (e0 e1 e2 : Exc),
      f 0 = .error e0 → e0.isConanNetwork = true →
      f 1 = .error e1 → e1.isConanNetwork = true →
      f 2 = .error e2 → e2.isConanNetwork = true →
      retry_on_network_error 3 f = (.error e2, 3)) := by
  refine ⟨?_, ?_, ?_⟩
  · intro α f e0 e1 v h0 hn0 h1 hn1 h2
    show retryLoop f 0 3 none = (.ok v, 3)
    rw [show (3 : Nat) = 2 + 1 from rfl, retryLoop_step_net h0 hn0,
      retryLoop_step_net h1 hn1, retryLoop_step_ok h2]
  · intro α f e h0 hn0
    show retryLoop f 0 3 none = (.error e, 1)
    rw [show (3 : Nat) = 2 + 1 from rfl, retryLoop_step_other h0 hn0]
  · intro α f e0 e1 e2 h0 hn0 h1 hn1 h2 hn2
    show retryLoop f 0 3 none = (.error e2, 3)
    rw [show (3 : Nat) = 2 + 1 from rfl, retryLoop_step_net h0 hn0,
      retryLoop_step_net h1 hn1, retryLoop_step_net h2 hn2, retryLoop_exhausted]

/-- Witness for C1 at concrete operations. -/
theorem C1_retry_only_network_failures_witness :
    retry_on_network_error 3
        (fun i => if i < 2 then .error (Exc.conanNetwork "down") else .ok 7) =
      (.ok 7, 3) ∧
    retry_on_network_error 3
        (fun _ => (.error (Exc.conanOutput "bad json") : Except Exc Nat)) =
      (.error (Exc.conanOutput "bad json"), 1) ∧
    retry_on_network_error 3
        (fun _ => (.error (Exc.conanNetwork "down") : Except Exc Nat)) =
      (.error (Exc.conanNetwork "down"), 3) :=
  ⟨C1_retry_only_network_failures.1 Nat _ (Exc.conanNetwork "down")
      (Exc.conanNetwork "down") 7 rfl rfl rfl rfl rfl,
   C1_retry_only_network_failures.2.1 Nat _ (Exc.conanOutput "bad json") rfl rfl,
   C1_retry_only_network_failures.2.2 Nat _ (Exc.conanNetwork "down")
      (Exc.conanNetwork "down") (Exc.conanNetwork "down") rfl rfl rfl rfl rfl rfl⟩

/-- C2: the scoped environment override is a round-trip on the process
environment.  (i) For every mapping (keys distinct, as they come from a Python
dict), prior environment and enclosed outcome `res` — success, failure or
cancellation alike — running the enclosed operation inside the context manager
returns `res` and leaves the environment exactly as it was, touched keys
restored to their prior values and previously-unset keys unset again;
(ii) when the mapping is `None` or empty, entering and exiting touch nothing:
the run is exactly the enclosed operation. -/
theorem C2_env_override_roundtrip :
    (∀ (α : Type) (env : List (String × String)) (environ : Environ)
       (res : Except Exc α),
      (env.map Prod.fst).Nodup →
      runWithEnv (some env) environ (fun e => (res, e)) = (res, environ)) ∧
    (∀ (α : Type) (environ : Environ) (op : Environ → Except Exc α × Environ),
      runWithEnv none environ op = op environ ∧
      runWithEnv (some []) environ op = op environ) := by
  constructor
  · intro α env environ res hnd
    cases env with
    | nil => rfl
    | cons kv rest =>
      show (res, exitLoop (enterLoop (kv :: rest) environ).2
        (enterLoop (kv :: rest) environ).1) = (res, environ)
      rw [env_roundtrip environ hnd]
  · intro α environ op
    exact ⟨rfl, rfl⟩

/-- Witness for C2: with `K` previously unset and the enclosed operation
cancelled, after the block `K` is unset again. -/
theorem C2_env_override_roundtrip_witness :
    runWithEnv (some [("K", "temp")]) (fun _ => none)
        (fun e => ((.error Exc.keyboardInterrupt : Except Exc Unit), e)) =
      (.error Exc.keyboardInterrupt, fun _ => none) ∧
    (runWithEnv (some [("K", "temp")]) (fun _ => none)
        (fun e => ((.error Exc.keyboardInterrupt : Except Exc Unit), e))).2 "K" =
      none := by
  have h := C2_env_override_roundtrip.1 Unit [("K", "temp")] (fun _ => none)
    (.error Exc.keyboardInterrupt) (by decide)
  exact ⟨h, by rw [h]⟩

theorem validate_fails_iff (fsE : String → Bool) (cf : String)
    (rec reqs : Option (List String)) :
    (∃ d, validate_setup_args fsE cf rec reqs = .error (.validationError d)) ↔
      validationErrors fsE cf rec reqs ≠ [] := by
  by_cases h : validationErrors fsE cf rec reqs = [] <;>
    simp [validate_setup_args, h]

theorem validationErrors_dot_none (fsE : String → Bool) (reqs : List String) :
    validationErrors fsE "." none (some reqs) =
      reqs.filterMap (fun req =>
        if req = "" ∨ ¬req.data.contains '/' then some (invalidReqMsg req)
        else none) := by
  cases reqs with
  | nil => rfl
  | cons r t => simp [validationErrors, optList]

theorem offending_iff (req : String) :
    (req = "" ∨ ¬req.data.contains '/') ↔ req.data.contains '/' = false := by
  constructor
  · rintro (rfl | h)
    · rfl
    · simpa using h
  · intro h
    right
    simp only [h]
    simp

/-- The aggregated `ValidationError` detail produced on the example input
`["invalid1", "fmt/10.0.0", "invalid2"]`. -/
def exampleAggDetail : String :=
  "\n  - " ++ joinWithSep "\n  - "
    (validationErrors (fun _ => true) "." none
      (some ["invalid1", "fmt/10.0.0", "invalid2"]))

set_option maxRecDepth 100000 in
/-- C3: `validate_setup_args` aggregates all detected problems into a single
input-validation failure.  (i) It fails exactly when the accumulated problem
list is nonempty; (ii) with only requirement strings in play it fails exactly
when some requirement lacks a `/`; (iii) every requirement lacking a `/`
appears verbatim in the aggregated error message; (iv) on
`["invalid1", "fmt/10.0.0", "invalid2"]` the message mentions `invalid1` and
`invalid2` but not `fmt/10.0.0`. -/
theorem C3_validation_aggregates_problems :
    (∀ (fsE : String → Bool) (cf : String) (rec reqs : Option (List String)),
      (∃ d, validate_setup_args fsE cf rec reqs = .error (.validationError d)) ↔
        validationErrors fsE cf rec reqs ≠ []) ∧
    (∀ (fsE : String → Bool) (reqs : List String),
      (∃ d, validate_setup_args fsE "." none (some reqs) =
          .error (.validationError d)) ↔
        ∃ req ∈ reqs, req.data.contains '/' = false) ∧
    (∀ (fsE : String → Bool) (reqs : List String) (req d : String),
      req ∈ reqs → req.data.contains '/' = false →
      validate_setup_args fsE "." none (some reqs) = .error (.validationError d) →
      strOccurs req d = true) ∧
    (validate_setup_args (fun _ => true) "." none
        (some ["invalid1", "fmt/10.0.0", "invalid2"]) =
      .error (.validationError exampleAggDetail) ∧
     strOccurs "invalid1" exampleAggDetail = true ∧
     strOccurs "invalid2" exampleAggDetail = true ∧
     strOccurs "fmt/10.0.0" exampleAggDetail = false) := by
  refine ⟨validate_fails_iff, ?_, ?_, ?_, by decide, by decide, by decide⟩
  · intro fsE reqs
    rw [validate_fails_iff, validationErrors_dot_none, Ne,
      List.filterMap_eq_nil_iff]
    push_neg
    constructor
    · rintro ⟨req, hmem, hne⟩
      refine ⟨req, hmem, ?_⟩
      by_contra hc
      apply hne
      rw [if_neg]
      rw [offending_iff]
      exact hc
    · rintro ⟨req, hmem, hc⟩
      exact ⟨req, hmem, by rw [if_pos (offending_iff req |>.mpr hc)]; simp⟩
  · intro fsE reqs req d hmem hc hval
    have hentry : invalidReqMsg req ∈
        validationErrors fsE "." none (some reqs) := by
      rw [validationErrors_dot_none]
      exact List.mem_filterMap.mpr
        ⟨req, hmem, by rw [if_pos (offending_iff req |>.mpr hc)]⟩
    have hne : validationErrors fsE "." none (some reqs) ≠ [] := by
      intro h0
      rw [h0] at hentry
      exact List.not_mem_nil _ hentry
    have hd : d = "\n  - " ++
        joinWithSep "\n  - " (validationErrors fsE "." none (some reqs)) := by
      simp only [validate_setup_args, if_pos hne] at hval
      exact (Exc.validationError.injEq _ _ |>.mp
        (Except.error.injEq _ _ |>.mp hval).symm).symm ▸ rfl
    subst hd
    have h1 : occursIn req.data (invalidReqMsg req).data = true :=
      occursIn_invalidReqMsg req
    have h2 : occursIn (invalidReqMsg req).data
        (joinWithSep "\n  - " (validationErrors fsE "." none (some reqs))).data =
        true := occursIn_join hentry
    have h3 := occursIn_trans h1 h2
    rcases occursIn_iff.mp h3 with ⟨p, q, hj⟩
    exact occursIn_iff.mpr ⟨("\n  - ").data ++ p, q, by
      simp [String.data_append, hj]⟩
  · rfl

/-- Witness for C3 at a concrete offending input. -/
theorem C3_validation_aggregates_problems_witness :
    (∃ d, validate_setup_args (fun _ => true) "." none (some ["abc"]) =
      .error (.validationError d)) ∧
    strOccurs "abc"
      ("\n  - " ++ joinWithSep "\n  - "
        (validationErrors (fun _ => true) "." none (some ["abc"]))) = true := by
  refine ⟨(C3_validation_aggregates_problems.2.1 (fun _ => true) ["abc"]).mpr
    ⟨"abc", by decide, by decide⟩, ?_⟩
  exact C3_validation_aggregates_problems.2.2.1 (fun _ => true) ["abc"] "abc" _
    (by decide) (by decide) rfl

/-- C4 counterexample: with an existing non-default conanfile path and an
explicit—but empty—requirement list, `validate_setup_args` succeeds: the
mutual-exclusion check `if conan_requirements and conanfile != '.'` treats the
empty list as falsy, so supplying both does not always fail. -/
theorem C4_counterexample :
    validate_setup_args (fun _ => true) "deps/conanfile_dir" none (some []) =
      .ok () ∧
    "deps/conanfile_dir" ≠ "." ∧ (some ([] : List String)) ≠ none :=
  ⟨rfl, by decide, by decide⟩

/-- C4 (amended): for every call to `validate_setup_args` where the conanfile
path differs from the default `"."` and a nonempty explicit requirement list is
supplied, validation fails with an input-validation error. -/
theorem C4_mutual_exclusion :
    ∀ (fsE : String → Bool) (cf : String) (rec : Option (List String))
      (l : List String),
      cf ≠ "." → l ≠ [] →
      ∃ d, validate_setup_args fsE cf rec (some l) =
        .error (.validationError d) := by
  intro fsE cf rec l hcf hl
  rw [validate_fails_iff]
  intro h0
  have : validationErrors fsE cf rec (some l) ≠ [] := by
    simp only [validationErrors, optList, Option.getD_some]
    intro hall
    rcases List.append_eq_nil.mp hall with ⟨-, h4⟩
    rw [if_pos ⟨hl, hcf⟩] at h4
    cases h4
  exact this h0

/-- Witness for the amended C4. -/
theorem C4_mutual_exclusion_witness :
    ∃ d, validate_setup_args (fun _ => true) "deps/conanfile_dir" none
      (some ["fmt/10.0.0"]) = .error (.validationError d) :=
  C4_mutual_exclusion (fun _ => true) "deps/conanfile_dir" none ["fmt/10.0.0"]
    (by decide) (by decide)

/-- C5: `cmake_args()` raises the configuration-missing `RuntimeError` exactly
when the toolchain file is absent from the per-build-type output folder, and
when it is present returns exactly the two flags naming the toolchain file and
the prefix path. -/
theorem C5_cmake_args_two_flags :
    ∀ (gf : String) (fsE : String → Bool),
      (fsE (gf ++ "/conan_toolchain.cmake") = false →
        cmake_args gf fsE = .error (.runtimeError
          ("conan_toolchain.cmake not found. Make sure you" ++
           " specified \x27CMakeDeps\x27 and \x27CMakeToolchain\x27 as" ++
           " generators."))) ∧
      (fsE (gf ++ "/conan_toolchain.cmake") = true →
        cmake_args gf fsE =
          .ok ["-DCMAKE_TOOLCHAIN_FILE=" ++ (gf ++ "/conan_toolchain.cmake"),
               "-DCMAKE_PREFIX_PATH=" ++ gf] ∧
        ∀ flags, cmake_args gf fsE = .ok flags → flags.length = 2) := by
  intro gf fsE
  constructor
  · intro h
    simp [cmake_args, h]
  · intro h
    have h2 : cmake_args gf fsE =
        .ok ["-DCMAKE_TOOLCHAIN_FILE=" ++ (gf ++ "/conan_toolchain.cmake"),
             "-DCMAKE_PREFIX_PATH=" ++ gf] := by
      simp [cmake_args, h]
    refine ⟨h2, ?_⟩
    intro flags hf
    rw [h2] at hf
    injection hf with h3
    rw [← h3]
    rfl

/-- Witness for C5 with the file absent and present. -/
theorem C5_cmake_args_two_flags_witness :
    cmake_args "/out/release" (fun _ => false) =
      .error (.runtimeError
        ("conan_toolchain.cmake not found. Make sure you" ++
         " specified \x27CMakeDeps\x27 and \x27CMakeToolchain\x27 as" ++
         " generators.")) ∧
    cmake_args "/out/release" (fun _ => true) =
      .ok ["-DCMAKE_TOOLCHAIN_FILE=" ++ ("/out/release" ++ "/conan_toolchain.cmake"),
           "-DCMAKE_PREFIX_PATH=" ++ "/out/release"] :=
  ⟨(C5_cmake_args_two_flags "/out/release" (fun _ => false)).1 rfl,
   ((C5_cmake_args_two_flags "/out/release" (fun _ => true)).2 rfl).1⟩

/-- C10: an empty explicit requirement list is treated as if no requirements
were supplied.  (i) `validate_setup_args` with `conan_requirements = []`
accumulates exactly the problems it would with `None` — in particular neither
an invalid-format problem nor the mutual-exclusion conflict, even alongside a
non-default conanfile path; (ii) the install command built for an empty
requirement list equals the one built for `None`: a conanfile-based install
naming the given path and no `--requires` entries. -/
theorem C10_empty_requirements_like_none :
    (∀ (fsE : String → Bool) (cf : String) (rec : Option (List String)),
      validationErrors fsE cf rec (some []) = validationErrors fsE cf rec none ∧
      validate_setup_args fsE cf rec (some []) =
        validate_setup_args fsE cf rec none) ∧
    (validate_setup_args (fun _ => true) "deps/elsewhere" none (some []) =
      .ok ()) ∧
    (∀ (path : String) (settings : List (String × String))
       (gf profile buildType : String),
      installCmd path (some []) settings gf profile buildType =
        installCmd path none settings gf profile buildType ∧
      installCmd path (some []) settings gf profile buildType =
        ["install", path] ++
        settings.flatMap (fun kv => ["-s", kv.1 ++ "=" ++ kv.2]) ++
        ["--build=missing", "--output-folder=" ++ gf, "-g", "CMakeDeps",
         "-g", "CMakeToolchain", "-pr", profile, "-s",
         "build_type=" ++ buildType]) := by
  refine ⟨fun fsE cf rec => ⟨rfl, rfl⟩, rfl, fun path settings gf profile buildType => ⟨rfl, ?_⟩⟩
  simp [installCmd, optList]

/-- C6 counterexample: the claim ties the version-incompatibility failure to
"the major version is not 2", but the code tests only the first character of
the version string: for reported version `"25.0.0"`, whose major version is 25
(not 2), construction succeeds (and without a warning). -/
theorem C6_counterexample :
    check_conan_version "25.0.0" = .ok false ∧
    specMajorVersion "25.0.0" = some 25 ∧
    specMajorVersion "25.0.0" ≠ some 2 :=
  ⟨rfl, by decide, by decide⟩

/-- C6 (amended): the adapter fails with a version-incompatibility error
exactly when the first character of the reported version is not `'2'`; a
version starting with `"1"` fails, `"2.0.5"` succeeds but logs the old-2.0.x
warning, and `"2.5.0"` succeeds without warning. -/
theorem C6_version_check_first_char :
    (∀ (version : String) (c : Char) (rest : List Char),
      version.data = c :: rest →
      ((∃ cur req, check_conan_version version =
          .error (.conanVersion cur req)) ↔ c ≠ '2')) ∧
    check_conan_version "1.59.0" = .error (.conanVersion "1.59.0" "2.x") ∧
    check_conan_version "2.0.5" = .ok true ∧
    check_conan_version "2.5.0" = .ok false := by
  refine ⟨?_, rfl, rfl, rfl⟩
  intro version c rest h
  by_cases hc : c = '2'
  · subst hc
    have hok : check_conan_version version =
        .ok (parseWarnFlag ((pySplit '.' version.data).map List.asString)) := by
      simp [check_conan_version, h]
    rw [hok]
    simp
  · have herr : check_conan_version version =
        .error (.conanVersion version "2.x") := by
      simp [check_conan_version, h, hc]
    rw [herr]
    simp only [ne_eq, hc, not_false_eq_true, iff_true]
    exact ⟨version, "2.x", rfl⟩

/-- Witness for the amended C6 at a version whose first character is not 2. -/
theorem C6_version_check_first_char_witness :
    ∃ cur req, check_conan_version "3.0.1" =
      .error (.conanVersion cur req) :=
  (C6_version_check_first_char.1 "3.0.1" '3' ['.', '0', '.', '1'] rfl).mpr
    (by decide)

/-- C7: exception wrapping in the local-recipe and dependency-resolution
phases of install.  (i) An exception from the per-path body of
`install_from_paths` that derives from `Exception` but is none of the known
kinds (recipe, network, malformed-output) is wrapped as a local-recipe failure
naming the recipe path; (ii) the known kinds propagate unchanged; (iii) an
exception from the dependency-resolution phase body that derives from
`Exception` but is none of its known kinds (dependency, network,
malformed-output) is wrapped as a dependency-resolution failure; (iv) the known
kinds propagate unchanged. -/
theorem C7_phase_exception_wrapping :
    (∀ (fsE : String → Bool) (body : String → Except Exc Unit)
       (path : String) (rest : List String) (e : Exc),
      fsE path = true → fsE (path ++ "/conanfile.py") = true →
      body path = .error e → e.isException = true →
      e.isConanRecipe = false → e.isConanNetwork = false →
      e.isConanOutput = false →
      install_from_paths fsE body (path :: rest) =
        .error (.conanRecipe path (excStr e))) ∧
    (∀ (fsE : String → Bool) (body : String → Except Exc Unit)
       (path : String) (rest : List String) (e : Exc),
      fsE path = true → fsE (path ++ "/conanfile.py") = true →
      body path = .error e →
      (e.isConanRecipe = true ∨ e.isConanNetwork = true ∨
        e.isConanOutput = true) →
      install_from_paths fsE body (path :: rest) = .error e) ∧
    (∀ (e : Exc),
      e.isException = true → e.isConanDependency = false →
      e.isConanNetwork = false → e.isConanOutput = false →
      installDependencyPhase (.error e) =
        .error (.conanDependency (excStr e))) ∧
    (∀ (e : Exc),
      (e.isConanDependency = true ∨ e.isConanNetwork = true ∨
        e.isConanOutput = true) →
      installDependencyPhase (.error e) = .error e) := by
  refine ⟨?_, ?_, ?_, ?_⟩
  · intro fsE body path rest e hp hcf hb hexc hr hn ho
    simp [install_from_paths, hp, hcf, hb, hexc, hr, hn, ho]
  · intro fsE body path rest e hp hcf hb hknown
    cases e <;>
      simp_all [install_from_paths, Exc.isException, Exc.isConanRecipe,
        Exc.isConanNetwork, Exc.isConanOutput]
  · intro e hexc hd hn ho
    simp [installDependencyPhase, hexc, hd, hn, ho]
  · intro e hknown
    cases e <;>
      simp_all [installDependencyPhase, Exc.isException, Exc.isConanDependency,
        Exc.isConanNetwork, Exc.isConanOutput]

/-- Witness for C7 at concrete exceptions. -/
theorem C7_phase_exception_wrapping_witness :
    install_from_paths (fun _ => true)
        (fun _ => .error (.conanProfile "skbuild_conan_py" "boom")) ["recipes/r1"] =
      .error (.conanRecipe "recipes/r1"
        (excStr (.conanProfile "skbuild_conan_py" "boom"))) ∧
    install_from_paths (fun _ => true)
        (fun _ => .error (.conanNetwork "down")) ["recipes/r1"] =
      .error (.conanNetwork "down") ∧
    installDependencyPhase (.error (.otherException "ValueError: oops")) =
      .error (.conanDependency "ValueError: oops") ∧
    installDependencyPhase (.error (.conanOutput "not json")) =
      .error (.conanOutput "not json") :=
  ⟨C7_phase_exception_wrapping.1 (fun _ => true) _ "recipes/r1" [] _
      rfl rfl rfl rfl rfl rfl rfl,
   C7_phase_exception_wrapping.2.1 (fun _ => true) _ "recipes/r1" [] _
      rfl rfl rfl (Or.inr (Or.inl rfl)),
   C7_phase_exception_wrapping.2.2.1 _ rfl rfl rfl rfl,
   C7_phase_exception_wrapping.2.2.2 _ (Or.inr (Or.inr rfl))⟩

/-- C8: `setup` exits with code 1 for every known failure kind (the
`SkbuildConanError` hierarchy: version-incompatibility, profile-setup,
dependency-resolution, network, recipe, malformed-output, input-validation,
version-compatibility), including a pre-flight validation failure; exits with
code 130 on `KeyboardInterrupt`; and re-raises any other exception unchanged
instead of converting it to an exit code. -/
theorem C8_setup_exit_codes :
    (∀ (α : Type) (e : Exc), e.isSkbuildConanError = true →
      setupHandle (.error e : Except Exc α) = .exitCode 1) ∧
    (∀ (α : Type),
      setupHandle (.error .keyboardInterrupt : Except Exc α) = .exitCode 130) ∧
    (∀ (α : Type) (e : Exc), e.isSkbuildConanError = false →
      e ≠ .keyboardInterrupt →
      setupHandle (.error e : Except Exc α) = .reraised e) ∧
    (∀ (α : Type) (fsE : String → Bool) (cf : String)
       (rec reqs : Option (List String)) (body : Except Exc α) (d : String),
      validate_setup_args fsE cf rec reqs = .error (.validationError d) →
      setupModel fsE cf rec reqs body = .exitCode 1) := by
  refine ⟨?_, ?_, ?_, ?_⟩
  · intro α e he
    cases e <;> simp_all [setupHandle, Exc.isSkbuildConanError,
      Exc.isConanVersion, Exc.isConanProfile, Exc.isConanDependency,
      Exc.isConanNetwork]
  · intro α
    rfl
  · intro α e he hki
    cases e <;> simp_all [setupHandle, Exc.isSkbuildConanError,
      Exc.isConanVersion, Exc.isConanProfile, Exc.isConanDependency,
      Exc.isConanNetwork]
  · intro α fsE cf rec reqs body d hval
    simp [setupModel, hval]

/-- Witness for C8 at each termination mode. -/
theorem C8_setup_exit_codes_witness :
    setupHandle (.error (.conanDependency "unresolved") : Except Exc Nat) =
      .exitCode 1 ∧
    setupHandle (.error .keyboardInterrupt : Except Exc Nat) = .exitCode 130 ∧
    setupHandle (.error (.runtimeError "boom") : Except Exc Nat) =
      .reraised (.runtimeError "boom") ∧
    setupModel (fun _ => false) "deps/nowhere" none none
        (.ok 0 : Except Exc Nat) = .exitCode 1 :=
  ⟨C8_setup_exit_codes.1 Nat _ rfl,
   C8_setup_exit_codes.2.1 Nat,
   C8_setup_exit_codes.2.2.1 Nat _ rfl (by decide),
   C8_setup_exit_codes.2.2.2 Nat (fun _ => false) "deps/nowhere" none none
      (.ok 0) ("\n  - " ++ joinWithSep "\n  - "
        (validationErrors (fun _ => false) "deps/nowhere" none none)) rfl⟩

/-- C9: `generate_dependency_report` never raises.  For every adapter state,
requirements list and oracle outcomes whose failures derive from `Exception`
(the kind its `except` clauses catch), it returns the rendered report; a read
failure of the resolved-package graph or a write failure of the report file
degrades to a debug-logged note, and the rendered report is still returned —
the same report the successful write would have returned — even when the write
fails. -/
theorem C9_report_never_raises :
    ∀ (profile buildType gf : String) (settings : List (String × String))
      (localRecipes : List String) (requirements : Option (List String))
      (timestamp : String) (fsE : String → Bool)
      (readG : Except Exc Bool) (writeR : Except Exc Unit),
      (∀ e, readG = .error e → e.isException = true) →
      (∀ e, writeR = .error e → e.isException = true) →
      ∃ rpt,
        generate_dependency_report profile buildType gf settings localRecipes
          requirements timestamp fsE readG writeR = .ok rpt ∧
        generate_dependency_report profile buildType gf settings localRecipes
          requirements timestamp fsE readG (.ok ()) = .ok rpt := by
  intro profile buildType gf settings localRecipes requirements timestamp fsE
    readG writeR hread hwrite
  have hgs : ∃ gs, graphSectionAttempt gf fsE readG = .ok gs := by
    cases readG with
    | ok b =>
      unfold graphSectionAttempt
      by_cases hfs : fsE (gf ++ "/graph_info.json") <;> simp [hfs]
    | error e =>
      have he := hread e rfl
      unfold graphSectionAttempt
      by_cases hfs : fsE (gf ++ "/graph_info.json") <;> simp [hfs, he]
  rcases hgs with ⟨gs, hgs⟩
  refine ⟨joinWithSep "\n"
      (reportLines profile buildType gf settings localRecipes requirements
        timestamp gs), ?_, ?_⟩
  · unfold generate_dependency_report
    rw [hgs]
    cases writeR with
    | ok u => cases u; rfl
    | error e =>
      have he := hwrite e rfl
      simp [he]
  · unfold generate_dependency_report
    rw [hgs]

/-- Witness for C9: both the graph read and the report write fail with
ordinary exceptions, and the rendered report is still returned. -/
theorem C9_report_never_raises_witness :
    ∃ rpt,
      generate_dependency_report "skbuild_conan_py" "Release" "/out/release"
        [("compiler.libcxx", "libstdc++11")] ["recipes/r1"]
        (some ["fmt/10.0.0"]) "2026-01-01 00:00:00" (fun _ => true)
        (.error (.otherException "json.decoder.JSONDecodeError"))
        (.error (.otherException "PermissionError")) = .ok rpt ∧
      generate_dependency_report "skbuild_conan_py" "Release" "/out/release"
        [("compiler.libcxx", "libstdc++11")] ["recipes/r1"]
        (some ["fmt/10.0.0"]) "2026-01-01 00:00:00" (fun _ => true)
        (.error (.otherException "json.decoder.JSONDecodeError"))
        (.ok ()) = .ok rpt := by
  refine C9_report_never_raises "skbuild_conan_py" "Release" "/out/release"
    [("compiler.libcxx", "libstdc++11")] ["recipes/r1"] (some ["fmt/10.0.0"])
    "2026-01-01 00:00:00" (fun _ => true)
    (.error (.otherException "json.decoder.JSONDecodeError"))
    (.error (.otherException "PermissionError")) ?_ ?_
  · intro e he
    injection he with h
    rw [← h]
    rfl
  · intro e he
    injection he with h
    rw [← h]
    rfl
